import Mathlib

/-!
Shallow embedding of the Booking-Agent backend (src/main.py).

Modelling conventions:
* Python `datetime` values are modelled by `DateTime` below.  The calendar
  date is a single day number (days since a fixed Monday epoch), so
  `weekday` is `date % 7` with Monday = 0 exactly as in Python.  Calendar
  renderings that need a month name (`%B %d`) print the day number instead;
  this is an injective re-encoding of the date and no claim depends on the
  exact month-name text.
* Python substring tests (`w in s`) are modelled by `strContains`;
  `str.lower()` by mapping `Char.toLower` (ASCII, as in every keyword the
  code tests).
* The Google provider, the GROQ key and the GROQ HTTP call are external
  effects; they are passed in as an explicit environment `Env`.  A raised
  exception is modelled by `Except.error`.
-/

/-- Model of Python `datetime`: day number since a Monday epoch plus
time-of-day fields.  `replace(...)` is a structure update, `weekday()` is
`date % 7` (Monday = 0). -/
structure DateTime where
  date : Nat
  hour : Nat
  minute : Nat
  second : Nat
  microsecond : Nat
deriving DecidableEq, Repr

/-- Python `datetime.weekday()`: Monday = 0 ... Sunday = 6. -/
def DateTime.weekday (dt : DateTime) : Nat := dt.date % 7

/-- Python `int(dt.timestamp())`: whole seconds since the epoch. -/
def DateTime.timestamp (dt : DateTime) : Nat :=
  dt.date * 86400 + dt.hour * 3600 + dt.minute * 60 + dt.second

/-- Python `dt + timedelta(days=n)`. -/
def addDays (dt : DateTime) (n : Nat) : DateTime :=
  { dt with date := dt.date + n }

/-- Python `dt + timedelta(hours=n)`, rolling over into the next day. -/
def addHours (dt : DateTime) (n : Nat) : DateTime :=
  { dt with date := dt.date + (dt.hour + n) / 24, hour := (dt.hour + n) % 24 }

/-- Is `needle` a prefix of `hay` (character lists)? -/
def listStartsWith : List Char → List Char → Bool
  | [], _ => true
  | _ :: _, [] => false
  | a :: as, b :: bs => a == b && listStartsWith as bs

/-- Python `needle in hay` on strings: substring containment. -/
def containsSub (needle : List Char) : List Char → Bool
  | [] => listStartsWith needle []
  | c :: rest => listStartsWith needle (c :: rest) || containsSub needle rest

/-- Python `needle in hay` for `String`s. -/
def strContains (hay needle : String) : Bool :=
  containsSub needle.toList hay.toList

/-- Python `s.lower()` (ASCII case folding, which covers every keyword the
code compares against). -/
def lowerStr (s : String) : String :=
  String.mk (s.toList.map Char.toLower)

/-- The test `word in msg.lower()` used throughout `main.py` (the keyword
literals in the source are already lower-case). -/
def containsWord (msg word : String) : Bool :=
  strContains (lowerStr msg) word

/-- The event dictionary shape produced by `GoogleCalendarService`
(`_format_event` and the mock paths): keys `id, title, start, end, status`.
Times are kept as `DateTime` (the Python code stores their `isoformat()`
strings, an injective encoding). -/
structure CalendarEvent where
  id : String
  title : String
  start : DateTime
  end_ : DateTime
  status : String
deriving DecidableEq, Repr

/-- A raw provider event as returned by the Google client: `summary` and
`status` may be absent. -/
structure RawEvent where
  id : String
  summary : Option String
  start : DateTime
  end_ : DateTime
  status : Option String
deriving DecidableEq, Repr

/-- The body `create_event` sends to the provider `insert` call. -/
structure EventBody where
  summary : String
  description : String
  start : DateTime
  end_ : DateTime
deriving DecidableEq, Repr

/-- The live Google client (`self.service` when not `None`): its `list` and
`insert` calls either return data or raise (modelled with `Except`). -/
structure Provider where
  listEvents : DateTime → DateTime → Except String (List RawEvent)
  insertEvent : EventBody → Except String RawEvent

/-- `GoogleCalendarService._format_event`. -/
def format_event (e : RawEvent) : CalendarEvent :=
  { id := e.id
    title := e.summary.getD "No Title"
    start := e.start
    end_ := e.end_
    status := e.status.getD "confirmed" }

/-- `GoogleCalendarService._get_mock_events`.  `current` is the range start
with the time-of-day replaced by 09:00:00.000000; the two placeholder
meetings are appended under the same nested conditions as the source. -/
def get_mock_events (start_time end_time : DateTime) : List CalendarEvent :=
  let current : DateTime :=
    { start_time with hour := 9, minute := 0, second := 0, microsecond := 0 }
  if current.weekday < 5 then
    (if current.hour ≤ 10 then
      [ { id := "mock_1_" ++ toString current.date
          title := "Team Standup"
          start := { current with hour := 10 }
          end_ := { current with hour := 10, minute := 30 }
          status := "confirmed" } ]
     else []) ++
    (if current.hour ≤ 15 then
      [ { id := "mock_2_" ++ toString current.date
          title := "Client Review"
          start := { current with hour := 15 }
          end_ := { current with hour := 16 }
          status := "confirmed" } ]
     else [])
  else []

/-- `GoogleCalendarService.get_events`: mock data when there is no provider
session, provider results otherwise, degrading to mock data when the
provider read raises. -/
def get_events (service : Option Provider) (start_time end_time : DateTime) :
    List CalendarEvent :=
  match service with
  | none => get_mock_events start_time end_time
  | some p =>
    match p.listEvents start_time end_time with
    | Except.ok evs => evs.map format_event
    | Except.error _ => get_mock_events start_time end_time

/-- The `fastapi.HTTPException` raised on a failed provider write. -/
structure HTTPError where
  status_code : Nat
  detail : String
deriving DecidableEq, Repr

/-- `GoogleCalendarService.create_event`: a fabricated confirmation dict in
mock mode; with a live provider the insert result is formatted, and a
provider failure re-raises as `HTTPException(500, ...)`. -/
def create_event (service : Option Provider) (title : String)
    (start_time end_time : DateTime) (description : String) :
    Except HTTPError CalendarEvent :=
  match service with
  | none =>
    Except.ok
      { id := "mock_event_" ++ toString start_time.timestamp
        title := title
        start := start_time
        end_ := end_time
        status := "confirmed" }
  | some p =>
    match p.insertEvent
        { summary := title, description := description
          start := start_time, end_ := end_time } with
    | Except.ok created => Except.ok (format_event created)
    | Except.error e =>
      Except.error { status_code := 500, detail := "Failed to create event: " ++ e }

/-- Message role: `HumanMessage` vs `AIMessage`. -/
inductive Role
  | user
  | assistant
deriving DecidableEq, Repr

/-- A LangChain chat message.  `toolCalls` models the `tool_calls`
attribute inspected by `should_continue`; `AIMessage(content=...)` as
constructed in `call_model`/`call_tool` leaves it empty. -/
structure Message where
  role : Role
  content : String
  toolCalls : List String
deriving DecidableEq, Repr

/-- The `AgentState` TypedDict.  The `messages` channel is annotated with
`operator.add`, so node outputs append to it; scalar channels replace.
Keys absent from the initial dict are `none`.  (`suggested_slots` and
`booking_details` are declared but never written by any node; their
element types are modelled opaquely.) -/
structure AgentState where
  messages : List Message
  user_intent : Option String
  extracted_datetime : Option String
  suggested_slots : Option (List String)
  booking_details : Option String
  step : Option String
deriving DecidableEq, Repr

/-- `should_continue`: returns `"continue"` iff the last message carries a
non-empty `tool_calls` attribute, else `"end"`.  (A `HumanMessage` has no
such attribute and an `AIMessage(content=...)` has the empty default, and
both cases fall to the `"end"` branch; the model gives every message an
explicit, possibly empty, `toolCalls` list.) -/
def should_continue (state : AgentState) : String :=
  match state.messages.getLast? with
  | some m => if m.toolCalls.isEmpty then "end" else "continue"
  | none => "end"

/-- The booking keyword list of `call_model`. -/
def bookingKeywords : List String := [ "schedule", "book", "appointment", "meeting" ]

/-- The availability keyword list of `call_model`. -/
def availabilityKeywords : List String := [ "available", "free", "check" ]

/-- The confirmation keyword list of `call_model`. -/
def confirmationKeywords : List String := [ "confirm", "yes", "okay" ]

/-- The intent-detection block of `call_model` (main.py lines 298-305),
which the spec names `classify`: case-insensitive substring tests,
first-match-wins in order booking, availability, confirmation, else
unknown. -/
def classify (text : String) : String :=
  if bookingKeywords.any (containsWord text) then "booking"
  else if availabilityKeywords.any (containsWord text) then "availability"
  else if confirmationKeywords.any (containsWord text) then "confirmation"
  else "unknown"

/-- The response-generation block of `call_model` (main.py lines 307-324). -/
def agentReply (intent last_message : String) : String :=
  if intent == "booking" then
    (if containsWord last_message "tomorrow afternoon" then
      "I\x27d be happy to help you schedule a call for tomorrow afternoon! Let me check what times are available."
     else if containsWord last_message "friday" then
      "Let me check your availability for this Friday."
     else
      "I\x27ll help you schedule that meeting. Could you tell me your preferred date and time?")
  else if intent == "availability" then
    "Let me check your calendar availability."
  else if intent == "confirmation" then
    "Great! Let me book that appointment for you."
  else
    "Hello! I\x27m here to help you schedule appointments. What would you like to book?"

/-- `call_model`, with the LangGraph channel merge applied: the returned
`AIMessage` (no tool calls) is appended to `messages` and `user_intent` is
replaced by the classified intent. -/
def call_model (state : AgentState) : AgentState :=
  let last_message :=
    match state.messages.getLast? with
    | some m => m.content
    | none => ""
  let intent := classify last_message
  let response := agentReply intent last_message
  { state with
      messages := state.messages ++ [ { role := Role.assistant, content := response, toolCalls := [] } ]
      user_intent := some intent }

/-- The process environment: current wall-clock time, the calendar provider
session (`None` in mock mode), the GROQ API key, and the outcome of the
GROQ HTTP call.  `groqChoices`: `Except.error` models a raised request or
shape exception; `Except.ok none` a JSON body whose `choices` key is
missing or empty; `Except.ok (some cs)` the list of message contents. -/
structure Env where
  now : DateTime
  service : Option Provider
  groqKey : Option String
  groqChoices : Except String (Option (List String))

/-- Zero-padded two-digit rendering used by `%I`/`%M`. -/
def pad2 (n : Nat) : String :=
  if n < 10 then "0" ++ toString n else toString n

/-- `strftime("%I:%M %p")`: 12-hour clock with AM/PM. -/
def fmtTime12 (dt : DateTime) : String :=
  let h12 := if dt.hour % 12 == 0 then 12 else dt.hour % 12
  pad2 h12 ++ ":" ++ pad2 dt.minute ++ " " ++ (if dt.hour < 12 then "AM" else "PM")

/-- `%A`: weekday name, Monday = 0. -/
def weekdayName (w : Nat) : String :=
  [ "Monday", "Tuesday", "Wednesday", "Thursday", "Friday", "Saturday", "Sunday" ].getD w ""

/-- `strftime("%A, %B %d")` under the day-number date model: the weekday
name followed by the day number. -/
def fmtDayLong (dt : DateTime) : String :=
  weekdayName dt.weekday ++ ", day " ++ toString dt.date

/-- `strftime("%A, %B %d at %I:%M %p")` under the day-number date model. -/
def fmtSlotLong (dt : DateTime) : String :=
  fmtDayLong dt ++ " at " ++ fmtTime12 dt

/-- The `check_calendar_availability` tool: resolves a start day from the
request text (tomorrow / today / next Friday / default tomorrow), checks a
12-hour window, and renders the events or a full-availability message. -/
def check_calendar_availability (env : Env) (date_range : String) : String :=
  let start_date :=
    if containsWord date_range "tomorrow" then addDays env.now 1
    else if containsWord date_range "today" then env.now
    else if containsWord date_range "friday" then
      addDays env.now (if env.now.weekday < 4 then 4 - env.now.weekday else 11 - env.now.weekday)
    else addDays env.now 1
  let end_date := addHours start_date 12
  let events := get_events env.service start_date end_date
  if events.isEmpty then
    "No existing events found for " ++ fmtDayLong start_date ++ ". You have full availability!"
  else
    "Existing events for " ++ fmtDayLong start_date ++ ":\n" ++
      String.intercalate "\n"
        (events.map (fun e =>
          "- " ++ e.title ++ ": " ++ fmtTime12 e.start ++ " - " ++ fmtTime12 e.end_))

/-- The slot list built inside the `suggest_time_slots` tool: one of three
fixed templates on the day after `now`, keyed on "afternoon" then
"morning" (the `replace(hour=..., minute=0)` calls keep the clock seconds
of `now`; the claims below are stated at minute granularity, the
granularity of everything the tool renders). -/
def suggestSlots (now : DateTime) (preferences : String) : List DateTime :=
  let base_date := addDays now 1
  if containsWord preferences "afternoon" then
    [ { base_date with hour := 14, minute := 0 }
    , { base_date with hour := 15, minute := 0 }
    , { base_date with hour := 16, minute := 0 } ]
  else if containsWord preferences "morning" then
    [ { base_date with hour := 9, minute := 0 }
    , { base_date with hour := 10, minute := 0 }
    , { base_date with hour := 11, minute := 0 } ]
  else
    [ { base_date with hour := 11, minute := 0 }
    , { base_date with hour := 14, minute := 0 }
    , { base_date with hour := 16, minute := 0 } ]

/-- The `suggest_time_slots` tool: renders the slot template as a
1-indexed enumerated list. -/
def suggest_time_slots (now : DateTime) (preferences : String) : String :=
  let slots := suggestSlots now preferences
  "Here are some available time slots:\n" ++
    String.intercalate "\n"
      (((List.range slots.length).zip slots).map
        (fun p => toString (p.1 + 1) ++ ". " ++ fmtSlotLong p.2))

/-- The `book_appointment` tool: books a fixed one-hour placeholder meeting
at 14:00 the day after `now`; a raised `HTTPException` is caught and
rendered as an error string (`str(e)` prints `"<status>: <detail>"`). -/
def book_appointment (env : Env) (details : String) : String :=
  let tomorrow := addDays env.now 1
  let start_time := { tomorrow with hour := 14, minute := 0, second := 0, microsecond := 0 }
  let end_time := addHours start_time 1
  match create_event env.service "Scheduled Meeting" start_time end_time
      "Meeting booked through TailorTalk agent" with
  | Except.ok event =>
    "✅ Appointment booked successfully!\nTitle: " ++ event.title ++
      "\nTime: " ++ fmtSlotLong start_time ++ " - " ++ fmtTime12 end_time ++
      "\nEvent ID: " ++ event.id
  | Except.error e =>
    "Error booking appointment: " ++ toString e.status_code ++ ": " ++ e.detail

/-- `call_tool`, with the LangGraph channel merge applied.  `last_message`
is `messages[-2]` when it exists; the `"suggest" not in step` guard is a
plain (not lowered) substring test. -/
def call_tool (env : Env) (state : AgentState) : AgentState :=
  let intent := state.user_intent.getD ""
  let last_message :=
    if state.messages.length > 1 then
      ((state.messages.get? (state.messages.length - 2)).map Message.content).getD ""
    else ""
  if intent == "availability" then
    { state with messages := state.messages ++
        [ { role := Role.assistant, content := check_calendar_availability env last_message, toolCalls := [] } ] }
  else if intent == "booking" && !(strContains (state.step.getD "") "suggest") then
    { state with
        messages := state.messages ++
          [ { role := Role.assistant, content := suggest_time_slots env.now last_message, toolCalls := [] } ]
        step := some "suggested" }
  else if intent == "confirmation" then
    { state with messages := state.messages ++
        [ { role := Role.assistant, content := book_appointment env last_message, toolCalls := [] } ] }
  else
    { state with messages := state.messages ++
        [ { role := Role.assistant, content := "I\x27m ready to help with your scheduling needs!", toolCalls := [] } ] }

/-- The compiled two-node `StateGraph`: entry at `agent` (`call_model`),
then the conditional edge `should_continue` (`"continue"` to `action`,
`"end"` to END), with an unconditional `action → agent` edge.  `fuel`
models the LangGraph recursion limit; exhausting it (the `none` result)
models `GraphRecursionError`. -/
def runGraph (env : Env) : Nat → AgentState → Option AgentState
  | 0, _ => none
  | fuel + 1, state =>
    let s1 := call_model state
    if should_continue s1 == "continue" then runGraph env fuel (call_tool env s1)
    else some s1

/-- The fresh per-request seed `{"messages": [HumanMessage(content=message)]}`. -/
def initState (message : String) : AgentState :=
  { messages := [ { role := Role.user, content := message, toolCalls := [] } ]
    user_intent := none
    extracted_datetime := none
    suggested_slots := none
    booking_details := none
    step := none }

/-- The module-level `sessions = {}` store.  No handler ever reads or
writes it. -/
def sessions : List (String × AgentState) := []

/-- The routing keyword list of `chat_endpoint`. -/
def chatKeywords : List String :=
  [ "schedule", "book", "appointment", "meeting", "available", "free",
    "check", "confirm", "yes", "okay" ]

/-- The `ChatResponse` pydantic model. -/
structure ChatResponse where
  response : String
  booking_confirmed : Bool
deriving DecidableEq, Repr

/-- `call_groq_ai`: the fixed missing-key message without a key; with a
key, the apology string on a raised request/shape error, the contents of
the first choice (stripped) on success, and the cannot-understand string
when `choices` is missing or empty. -/
def call_groq_ai (env : Env) (prompt : String) : String :=
  match env.groqKey with
  | none => "GROQ API key not found. Please set GROQ_API_KEY in your .env file."
  | some _ =>
    match env.groqChoices with
    | Except.error _ =>
      "Sorry, I couldn\x27t get a response from the AI model. Please try again later."
    | Except.ok choices =>
      match choices with
      | some (c :: _) => c.trim
      | some [] => "Sorry, I couldn\x27t understand the response from the AI model."
      | none => "Sorry, I couldn\x27t understand the response from the AI model."

/-- `chat_endpoint` (`POST /chat`): route to the agent graph when the
message contains a routing keyword (fresh single-message state, recursion
limit 25, `booking_confirmed` iff the resulting intent is
`"confirmation"`), otherwise fall back to the GROQ completion service with
`booking_confirmed = False`.  `session_id` is received but never used. -/
def chat_endpoint (env : Env) (message session_id : String) : Option ChatResponse :=
  if chatKeywords.any (containsWord message) then
    match runGraph env 25 (initState message) with
    | some result =>
      let ai_message :=
        match result.messages.getLast? with
        | some m => m.content
        | none => "Sorry, I couldn\x27t process your request."
      some { response := ai_message
             booking_confirmed := result.user_intent == some "confirmation" }
    | none => none
  else
    some { response := call_groq_ai env message, booking_confirmed := false }

/-- A concrete environment used by the closed witness statements: mock
calendar (no provider session), no GROQ key configured. -/
def demoEnv : Env :=
  { now := { date := 0, hour := 12, minute := 0, second := 0, microsecond := 0 }
    service := none
    groqKey := none
    groqChoices := Except.ok none }

/-- The agent node always hands back a tool-call-free `AIMessage`, so the
conditional edge always resolves to `"end"`. -/
theorem should_continue_call_model (s : AgentState) :
    should_continue (call_model s) = "end" := by
  simp [should_continue, call_model, List.getLast?_concat]

/-- With any positive recursion budget the graph stops right after the
first agent step: the `action` node is unreachable. -/
theorem runGraph_call_model (env : Env) (fuel : Nat) (s : AgentState) :
    runGraph env (fuel + 1) s = some (call_model s) := by
  simp [runGraph, should_continue_call_model]

/-- Specialisation of `runGraph_call_model` to the endpoint budget. -/
theorem runGraph_budget (env : Env) (s : AgentState) :
    runGraph env 25 s = some (call_model s) :=
  runGraph_call_model env 24 s

/-- The agent step on a fresh single-message state. -/
theorem call_model_initState (msg : String) :
    call_model (initState msg) =
      { messages :=
          [ { role := Role.user, content := msg, toolCalls := [] }
          , { role := Role.assistant, content := agentReply (classify msg) msg, toolCalls := [] } ]
        user_intent := some (classify msg)
        extracted_datetime := none
        suggested_slots := none
        booking_details := none
        step := none } := rfl

/-- Keyword branch of the endpoint, fully evaluated. -/
theorem chat_endpoint_keyword (env : Env) (msg sid : String)
    (h : chatKeywords.any (containsWord msg) = true) :
    chat_endpoint env msg sid =
      some { response := agentReply (classify msg) msg
             booking_confirmed := classify msg == "confirmation" } := by
  simp [chat_endpoint, h, runGraph_budget, call_model_initState]

/-- Fallback branch of the endpoint. -/
theorem chat_endpoint_no_keyword (env : Env) (msg sid : String)
    (h : chatKeywords.any (containsWord msg) = false) :
    chat_endpoint env msg sid =
      some { response := call_groq_ai env msg, booking_confirmed := false } := by
  simp [chat_endpoint, h]

/-- C1: For a POST /chat request whose message contains a confirmation
keyword (such as "yes, confirm it"), the orchestrator is run, but —
contrary to the claim — the `createEvent` tool is never executed and the
response carries no provider-assigned event id: `call_model` returns an
`AIMessage` without tool calls, so `should_continue` answers `"end"` and
the graph stops at the canned confirmation acknowledgement, for every
environment (in particular, independently of the calendar provider), while
`booking_confirmed` is still true. -/
theorem confirm_message_books_nothing (env : Env) :
    chat_endpoint env "yes, confirm it" "s1" =
      some { response := "Great! Let me book that appointment for you."
             booking_confirmed := true } ∧
    should_continue (call_model (initState "yes, confirm it")) = "end" := by
  constructor
  · rw [chat_endpoint_keyword env "yes, confirm it" "s1" (by decide)]
    rfl
  · exact should_continue_call_model (initState "yes, confirm it")

/-- C2: For a message classified `availability`, the dialogue turn
processor never emits a tool request, so the orchestrator never takes the
AGENT → ACTION transition: with any recursion budget the graph returns
right after the agent node with only the canned availability reply, and
`check_calendar_availability` (`listEvents`) is never executed — contrary
to the claim. -/
theorem availability_never_reaches_action (env : Env) (msg : String) (fuel : Nat)
    (h : classify msg = "availability") :
    runGraph env (fuel + 1) (initState msg) =
      some { messages :=
               [ { role := Role.user, content := msg, toolCalls := [] }
               , { role := Role.assistant, content := "Let me check your calendar availability.", toolCalls := [] } ]
             user_intent := some "availability"
             extracted_datetime := none
             suggested_slots := none
             booking_details := none
             step := none } ∧
    should_continue (call_model (initState msg)) = "end" := by
  refine ⟨?_, should_continue_call_model (initState msg)⟩
  rw [runGraph_call_model, call_model_initState, h]
  rfl

/-- Witness for C2 at the concrete availability message
"are you free tomorrow". -/
theorem availability_never_reaches_action_witness :
    runGraph demoEnv 1 (initState "are you free tomorrow") =
      some { messages :=
               [ { role := Role.user, content := "are you free tomorrow", toolCalls := [] }
               , { role := Role.assistant, content := "Let me check your calendar availability.", toolCalls := [] } ]
             user_intent := some "availability"
             extracted_datetime := none
             suggested_slots := none
             booking_details := none
             step := none } :=
  (availability_never_reaches_action demoEnv "are you free tomorrow" 0 (by decide)).1

/-- Counterexample for C3: on a weekday range the synthetic morning entry
runs 10:00-10:30, not 09:00-09:30 — no synthetic event starts at hour 9. -/
theorem mock_morning_event_not_at_nine :
    (get_mock_events
        { date := 0, hour := 8, minute := 0, second := 0, microsecond := 0 }
        { date := 0, hour := 20, minute := 0, second := 0, microsecond := 0 }).map
        (fun e => (e.start.hour, e.start.minute, e.end_.hour, e.end_.minute)) =
      [ (10, 0, 10, 30), (15, 0, 16, 0) ] ∧
    ∀ e ∈ get_mock_events
        { date := 0, hour := 8, minute := 0, second := 0, microsecond := 0 }
        { date := 0, hour := 20, minute := 0, second := 0, microsecond := 0 },
      e.start.hour ≠ 9 := by
  decide

/-- C3 (amended): with no provider session, `get_events` on a range whose
start falls on a weekday returns exactly two synthetic events — a
30-minute 10:00-10:30 morning entry and a 1-hour 15:00-16:00 afternoon
entry — and on a weekend start returns the empty list; the result depends
only on the start date. -/
theorem get_mock_events_shape (s e : DateTime) :
    (s.weekday < 5 →
      get_events none s e =
        [ { id := "mock_1_" ++ toString s.date
            title := "Team Standup"
            start := { date := s.date, hour := 10, minute := 0, second := 0, microsecond := 0 }
            end_ := { date := s.date, hour := 10, minute := 30, second := 0, microsecond := 0 }
            status := "confirmed" }
        , { id := "mock_2_" ++ toString s.date
            title := "Client Review"
            start := { date := s.date, hour := 15, minute := 0, second := 0, microsecond := 0 }
            end_ := { date := s.date, hour := 16, minute := 0, second := 0, microsecond := 0 }
            status := "confirmed" } ]) ∧
    (5 ≤ s.weekday → get_events none s e = []) ∧
    (∀ s2 e2 : DateTime, s.date = s2.date → get_events none s e = get_events none s2 e2) := by
  refine ⟨?_, ?_, ?_⟩
  · intro h
    simp only [DateTime.weekday] at h
    simp [get_events, get_mock_events, DateTime.weekday, h]
  · intro h
    have h2 : ¬ (s.date % 7 < 5) := by
      simp only [DateTime.weekday] at h
      omega
    simp [get_events, get_mock_events, DateTime.weekday, h2]
  · intro s2 e2 hdate
    simp only [get_events, get_mock_events, DateTime.weekday]
    rw [hdate]

/-- Witness for C3 at a concrete Saturday start (day 5 of the Monday-based
epoch). -/
theorem get_mock_events_shape_witness :
    get_events none
        { date := 5, hour := 8, minute := 0, second := 0, microsecond := 0 }
        { date := 5, hour := 20, minute := 0, second := 0, microsecond := 0 } = [] :=
  (get_mock_events_shape
      { date := 5, hour := 8, minute := 0, second := 0, microsecond := 0 }
      { date := 5, hour := 20, minute := 0, second := 0, microsecond := 0 }).2.1 (by decide)

/-- C4: `chat_endpoint` routes to the orchestrator exactly when the message
contains one of the fixed keywords; in that branch `booking_confirmed` is
true iff the classified intent is `"confirmation"`, and otherwise the
message goes to the completion fallback with `booking_confirmed = false`. -/
theorem chat_routing (env : Env) (msg sid : String) :
    (chatKeywords.any (containsWord msg) = true →
      chat_endpoint env msg sid =
        some { response := agentReply (classify msg) msg
               booking_confirmed := classify msg == "confirmation" }) ∧
    ((classify msg == "confirmation") = true ↔ classify msg = "confirmation") ∧
    (chatKeywords.any (containsWord msg) = false →
      chat_endpoint env msg sid =
        some { response := call_groq_ai env msg, booking_confirmed := false }) :=
  ⟨fun h => chat_endpoint_keyword env msg sid h,
   beq_iff_eq,
   fun h => chat_endpoint_no_keyword env msg sid h⟩

/-- Witness for C4: both routing branches at concrete messages. -/
theorem chat_routing_witness :
    chat_endpoint demoEnv "book a meeting" "s1" =
      some { response := agentReply (classify "book a meeting") "book a meeting"
             booking_confirmed := classify "book a meeting" == "confirmation" } ∧
    chat_endpoint demoEnv "tell me a story" "s1" =
      some { response := call_groq_ai demoEnv "tell me a story", booking_confirmed := false } :=
  ⟨(chat_routing demoEnv "book a meeting" "s1").1 (by decide),
   (chat_routing demoEnv "tell me a story" "s1").2.2 (by decide)⟩

/-- C5: `classify` is a first-match-wins cascade of case-insensitive
substring tests in order booking, availability, confirmation, else
unknown: any booking keyword forces `"booking"`; an availability keyword
with no booking keyword forces `"availability"`; a confirmation keyword
with no earlier keyword forces `"confirmation"`; with none of them the
result is `"unknown"`. -/
theorem classify_keyword_order :
    (∀ msg w, w ∈ bookingKeywords → containsWord msg w = true →
      classify msg = "booking") ∧
    (∀ msg w, w ∈ availabilityKeywords → containsWord msg w = true →
      (∀ b ∈ bookingKeywords, containsWord msg b = false) →
      classify msg = "availability") ∧
    (∀ msg w, w ∈ confirmationKeywords → containsWord msg w = true →
      (∀ b ∈ bookingKeywords, containsWord msg b = false) →
      (∀ a ∈ availabilityKeywords, containsWord msg a = false) →
      classify msg = "confirmation") ∧
    (∀ msg,
      (∀ k ∈ bookingKeywords, containsWord msg k = false) →
      (∀ k ∈ availabilityKeywords, containsWord msg k = false) →
      (∀ k ∈ confirmationKeywords, containsWord msg k = false) →
      classify msg = "unknown") := by
  refine ⟨?_, ?_, ?_, ?_⟩
  · intro msg w hw hc
    have hb : bookingKeywords.any (containsWord msg) = true :=
      List.any_eq_true.mpr ⟨w, hw, hc⟩
    simp [classify, hb]
  · intro msg w hw hc hnb
    have hb : bookingKeywords.any (containsWord msg) = false := by
      rw [List.any_eq_false]
      intro b hbm
      simp [hnb b hbm]
    have ha : availabilityKeywords.any (containsWord msg) = true :=
      List.any_eq_true.mpr ⟨w, hw, hc⟩
    simp [classify, hb, ha]
  · intro msg w hw hc hnb hna
    have hb : bookingKeywords.any (containsWord msg) = false := by
      rw [List.any_eq_false]
      intro b hbm
      simp [hnb b hbm]
    have ha : availabilityKeywords.any (containsWord msg) = false := by
      rw [List.any_eq_false]
      intro a ham
      simp [hna a ham]
    have hco : confirmationKeywords.any (containsWord msg) = true :=
      List.any_eq_true.mpr ⟨w, hw, hc⟩
    simp [classify, hb, ha, hco]
  · intro msg hnb hna hnc
    have hb : bookingKeywords.any (containsWord msg) = false := by
      rw [List.any_eq_false]
      intro b hbm
      simp [hnb b hbm]
    have ha : availabilityKeywords.any (containsWord msg) = false := by
      rw [List.any_eq_false]
      intro a ham
      simp [hna a ham]
    have hco : confirmationKeywords.any (containsWord msg) = false := by
      rw [List.any_eq_false]
      intro c hcm
      simp [hnc c hcm]
    simp [classify, hb, ha, hco]

/-- Witness for C5: a booking utterance and a booking-free availability
utterance. -/
theorem classify_keyword_order_witness :
    classify "please book a slot" = "booking" ∧
    classify "are you free tomorrow" = "availability" :=
  ⟨classify_keyword_order.1 "please book a slot" "book" (by decide) (by decide),
   classify_keyword_order.2.1 "are you free tomorrow" "free" (by decide) (by decide) (by decide)⟩

/-- Counterexample for C6: the tool tests "afternoon" before "morning", so
the preference text "morning or afternoon" — which contains "morning" —
yields the 14:00/15:00/16:00 template, not three slots between 09:00 and
11:00. -/
theorem suggest_slots_morning_overridden :
    containsWord "morning or afternoon" "morning" = true ∧
    (suggestSlots
        { date := 0, hour := 12, minute := 0, second := 0, microsecond := 0 }
        "morning or afternoon").map DateTime.hour = [ 14, 15, 16 ] ∧
    ¬ (∀ s ∈ suggestSlots
          { date := 0, hour := 12, minute := 0, second := 0, microsecond := 0 }
          "morning or afternoon", s.hour ≤ 11) := by
  decide

/-- C6 (amended): `suggestSlots` on a preference text containing
"afternoon" returns exactly 3 slots, all between 14:00 and 16:00 on the
day after the current date; on a text containing "morning" and not
"afternoon" it returns exactly 3 slots, all between 09:00 and 11:00 on the
day after the current date (bounds at minute granularity, the granularity
the tool renders). -/
theorem suggest_slots_templates (now : DateTime) (prefs : String) :
    (containsWord prefs "afternoon" = true →
      (suggestSlots now prefs).length = 3 ∧
      ∀ s ∈ suggestSlots now prefs,
        14 * 60 ≤ s.hour * 60 + s.minute ∧ s.hour * 60 + s.minute ≤ 16 * 60 ∧
        s.date = now.date + 1) ∧
    (containsWord prefs "afternoon" = false → containsWord prefs "morning" = true →
      (suggestSlots now prefs).length = 3 ∧
      ∀ s ∈ suggestSlots now prefs,
        9 * 60 ≤ s.hour * 60 + s.minute ∧ s.hour * 60 + s.minute ≤ 11 * 60 ∧
        s.date = now.date + 1) := by
  constructor
  · intro h
    refine ⟨by simp [suggestSlots, h], ?_⟩
    intro s hs
    simp [suggestSlots, h, addDays] at hs
    rcases hs with hs | hs | hs <;> subst hs <;> simp
  · intro h hm
    refine ⟨by simp [suggestSlots, h, hm], ?_⟩
    intro s hs
    simp [suggestSlots, h, hm, addDays] at hs
    rcases hs with hs | hs | hs <;> subst hs <;> simp

/-- Witness for C6 at concrete preference texts for both templates. -/
theorem suggest_slots_templates_witness :
    (suggestSlots
        { date := 3, hour := 12, minute := 30, second := 7, microsecond := 0 }
        "tomorrow afternoon please").length = 3 ∧
    (suggestSlots
        { date := 3, hour := 12, minute := 30, second := 7, microsecond := 0 }
        "morning works best").length = 3 :=
  ⟨((suggest_slots_templates
      { date := 3, hour := 12, minute := 30, second := 7, microsecond := 0 }
      "tomorrow afternoon please").1 (by decide)).1,
   ((suggest_slots_templates
      { date := 3, hour := 12, minute := 30, second := 7, microsecond := 0 }
      "morning works best").2 (by decide) (by decide)).1⟩

/-- C7: with a live provider session, a failed provider write makes
`create_event` raise `HTTPException(500, "Failed to create event: ...")`
to its caller — it never returns a fabricated event — while a failed
provider read in `get_events` degrades to the synthetic data. -/
theorem create_event_write_failure (p : Provider) (title descr : String)
    (st en : DateTime) (msg : String)
    (hw : p.insertEvent
        { summary := title, description := descr, start := st, end_ := en } =
      Except.error msg) :
    create_event (some p) title st en descr =
      Except.error { status_code := 500, detail := "Failed to create event: " ++ msg } ∧
    (∀ ev, create_event (some p) title st en descr ≠ Except.ok ev) ∧
    (∀ st2 en2 err, p.listEvents st2 en2 = Except.error err →
      get_events (some p) st2 en2 = get_mock_events st2 en2) := by
  refine ⟨?_, ?_, ?_⟩
  · simp [create_event, hw]
  · intro ev
    simp [create_event, hw]
  · intro st2 en2 err hr
    simp [get_events, hr]

/-- A provider whose read and write calls both raise, for the C7 witness. -/
def failingProvider : Provider :=
  { listEvents := fun _ _ => Except.error "read down"
    insertEvent := fun _ => Except.error "insert failed" }

/-- Witness for C7 with `failingProvider` at concrete times. -/
theorem create_event_write_failure_witness :
    create_event (some failingProvider) "Scheduled Meeting"
        { date := 1, hour := 14, minute := 0, second := 0, microsecond := 0 }
        { date := 1, hour := 15, minute := 0, second := 0, microsecond := 0 }
        "d" =
      Except.error { status_code := 500, detail := "Failed to create event: insert failed" } :=
  (create_event_write_failure failingProvider "Scheduled Meeting" "d"
      { date := 1, hour := 14, minute := 0, second := 0, microsecond := 0 }
      { date := 1, hour := 15, minute := 0, second := 0, microsecond := 0 }
      "insert failed" rfl).1

/-- C8: for a message with no routing keyword, the endpoint answers with
the fixed missing-key message (and `booking_confirmed = false`) when no
GROQ key is configured, and with the fixed apologetic string when the
completion call raises — the request never fails. -/
theorem chat_fallback_errors (env : Env) (msg sid : String)
    (hk : chatKeywords.any (containsWord msg) = false) :
    (env.groqKey = none →
      chat_endpoint env msg sid =
        some { response := "GROQ API key not found. Please set GROQ_API_KEY in your .env file."
               booking_confirmed := false }) ∧
    (∀ k e, env.groqKey = some k → env.groqChoices = Except.error e →
      chat_endpoint env msg sid =
        some { response := "Sorry, I couldn\x27t get a response from the AI model. Please try again later."
               booking_confirmed := false }) := by
  constructor
  · intro hkey
    rw [chat_endpoint_no_keyword env msg sid hk]
    simp [call_groq_ai, hkey]
  · intro k e hkey herr
    rw [chat_endpoint_no_keyword env msg sid hk]
    simp [call_groq_ai, hkey, herr]

/-- Witness for C8 at the keyword-free message "tell me about the weather"
for both the missing-key and the failed-call environments. -/
theorem chat_fallback_errors_witness :
    chat_endpoint demoEnv "tell me about the weather" "s2" =
      some { response := "GROQ API key not found. Please set GROQ_API_KEY in your .env file."
             booking_confirmed := false } ∧
    chat_endpoint
        { now := { date := 0, hour := 12, minute := 0, second := 0, microsecond := 0 }
          service := none
          groqKey := some "k"
          groqChoices := Except.error "timeout" }
        "tell me about the weather" "s2" =
      some { response := "Sorry, I couldn\x27t get a response from the AI model. Please try again later."
             booking_confirmed := false } :=
  ⟨(chat_fallback_errors demoEnv "tell me about the weather" "s2" (by decide)).1 rfl,
   (chat_fallback_errors
      { now := { date := 0, hour := 12, minute := 0, second := 0, microsecond := 0 }
        service := none
        groqKey := some "k"
        groqChoices := Except.error "timeout" }
      "tell me about the weather" "s2" (by decide)).2 "k" "timeout" rfl rfl⟩

/-- C9: the `/chat` response is independent of `session_id`: the handler
never consults the module-level `sessions` store (modelled as the constant
empty map) and seeds the orchestrator with a fresh single-message state,
so any two session ids produce identical results. -/
theorem chat_session_independent (env : Env) (msg sid1 sid2 : String) :
    chat_endpoint env msg sid1 = chat_endpoint env msg sid2 ∧
    sessions = [] :=
  ⟨rfl, rfl⟩

/-- C10: in mock mode the result of `get_events` is independent of the
requested range end — and consequently synthetic events can lie entirely
outside the requested window, as on the concrete five-minute range
09:00-09:05 whose two events both start after the range end. -/
theorem mock_get_events_ignores_range_end :
    (∀ s e1 e2 : DateTime, get_events none s e1 = get_events none s e2) ∧
    ((get_events none
        { date := 0, hour := 9, minute := 0, second := 0, microsecond := 0 }
        { date := 0, hour := 9, minute := 5, second := 0, microsecond := 0 }).length = 2 ∧
      ∀ ev ∈ get_events none
          { date := 0, hour := 9, minute := 0, second := 0, microsecond := 0 }
          { date := 0, hour := 9, minute := 5, second := 0, microsecond := 0 },
        (DateTime.timestamp
          { date := 0, hour := 9, minute := 5, second := 0, microsecond := 0 }) <
          ev.start.timestamp) := by
  refine ⟨fun s e1 e2 => rfl, ?_⟩
  decide
